import Mathlib

/-!
Shallow embedding of the `DigitalTwinSimulation` component of the
Digital-twin control-room dashboard (the simulation view that converts raw
sensor parameters into derived metrics and runs the telemetry polling and
manual ML-prediction flows).

JavaScript numbers are modelled as exact rationals (`ℚ`):
* `Math.round` is `jsRound`, the floor of `x + 1/2`, which matches the JS
  semantics including negative halves rounding towards positive infinity;
* `Number.prototype.toFixed f` re-parsed with `parseFloat` is `toFixed f`
  (on ties the larger candidate is picked, as ECMAScript prescribes);
* `Math.min` / `Math.max` are `min` / `max` on `ℚ`.

Stateful React code (`useState`, the polling `useEffect`, the fetch
handlers) is modelled by explicit state passing: a poll iteration is a
function from the previous state and the outcome of each network fetch to
the next state together with the list of HTTP requests it issued.
-/

namespace DigitalTwin

/-- JS `Math.round`: round half towards positive infinity. -/
def jsRound (q : ℚ) : ℤ := ⌊q + 1 / 2⌋

/-- `x.toFixed f` re-parsed by `parseFloat`: round to `f` decimal places,
ties towards positive infinity. -/
def toFixed (f : ℕ) (q : ℚ) : ℚ := (jsRound (q * 10 ^ f) : ℚ) / 10 ^ f

/-- `const clamp = (value, min, max) => Math.min(max, Math.max(min, value))`. -/
def clamp (value lo hi : ℚ) : ℚ := min hi (max lo value)

/-- The flat numeric parameter object `SimulationParams` from
`types/machine.ts` (22 numeric fields). -/
structure SimulationParams where
  rpm : ℚ
  torque : ℚ
  loadWeight : ℚ
  motorTemp : ℚ
  windingTemp : ℚ
  bearingTemp : ℚ
  ambientTemp : ℚ
  vibrationX : ℚ
  vibrationY : ℚ
  vibrationZ : ℚ
  voltage : ℚ
  current : ℚ
  powerConsumption : ℚ
  powerFactor : ℚ
  harmonicDistortion : ℚ
  efficiency : ℚ
  insulationResistance : ℚ
  operatingHours : ℚ
  startStopCycles : ℚ
  wearLevel : ℚ
  bearingWear : ℚ
  humidity : ℚ
deriving DecidableEq

/-- The `defaultParams` literal of the component. -/
def defaultParams : SimulationParams :=
  { rpm := 980
    torque := 120
    loadWeight := 62
    motorTemp := 188
    windingTemp := 188
    bearingTemp := 162
    ambientTemp := 28
    vibrationX := 2.1
    vibrationY := 2.4
    vibrationZ := 2.2
    voltage := 400
    current := 22
    powerConsumption := 18
    powerFactor := 0.88
    harmonicDistortion := 2.22
    efficiency := 88
    insulationResistance := 12
    operatingHours := 4200
    startStopCycles := 14
    wearLevel := 18
    bearingWear := 28
    humidity := 48 }

/-- The record produced by the `derived` `useMemo` of the component. -/
structure Derived where
  rpm : ℚ
  loadPercent : ℚ
  vibration : ℚ
  temperature : ℤ
  riskScore : ℚ
  expectedTemp : ℤ
  expectedVibration : ℚ
  remainingLife : ℚ
deriving DecidableEq

/-- The `derived` metrics computation, translated line by line from the
`useMemo` body of the component. -/
def derived (p : SimulationParams) : Derived :=
  let rpm := p.rpm
  let loadPercent := clamp (jsRound p.loadWeight : ℚ) 0 100
  let baseVibration := (p.vibrationX + p.vibrationY + p.vibrationZ) / 3
  let vibration := toFixed 2 baseVibration
  let temperature := jsRound ((p.motorTemp + p.bearingTemp) / 2)
  let powerPenalty := max 0 (1 - p.powerFactor) * 20
  let thermalStress := max 0 (p.ambientTemp - 25) * 0.3
  let wearPenalty := p.bearingWear * 0.12 + p.wearLevel * 0.08
  let riskScore := clamp
    ((jsRound ((rpm / 2000) * 18 + (p.torque / 200) * 12 +
      (vibration / 10) * 15 + ((temperature : ℚ) / 220) * 12 +
      powerPenalty + thermalStress + wearPenalty) : ℚ)) 0 100
  let expectedTemp := jsRound (temperature : ℚ)
  let expectedVibration := toFixed 1 vibration
  let remainingLife := max 120
    ((jsRound (1400 - riskScore * 8 - p.operatingHours / 6 - p.bearingWear * 3) : ℚ))
  { rpm := rpm
    loadPercent := loadPercent
    vibration := vibration
    temperature := temperature
    riskScore := riskScore
    expectedTemp := expectedTemp
    expectedVibration := expectedVibration
    remainingLife := remainingLife }

/-- One telemetry sample: the `TelemetrySample` type of the component. -/
structure TelemetrySample where
  timestamp : ℚ
  machineId : String
  machineName : String
  rpm : ℚ
  torque : ℚ
  loadWeight : ℚ
  motorTemp : ℚ
  windingTemp : ℚ
  bearingTemp : ℚ
  ambientTemp : ℚ
  vibrationX : ℚ
  vibrationY : ℚ
  vibrationZ : ℚ
  vibrationMagnitude : ℚ
  voltage : ℚ
  current : ℚ
  powerConsumption : ℚ
  powerFactor : ℚ
  harmonicDistortion : ℚ
  efficiency : ℚ
  operatingHours : ℚ
  startStopCycles : ℚ
  wearLevel : ℚ
  bearingWear : ℚ
  insulationResistance : ℚ
  humidity : ℚ
  isRunning : Bool
deriving DecidableEq

/-- A decoded telemetry response body: either a bare array of samples or an
object with an optional `machines` map. The map is modelled as an
association list whose order mirrors the `Object.keys` ordering. -/
inductive JsPayload where
  | arr (samples : List TelemetrySample)
  | obj (machines : Option (List (String × List TelemetrySample)))
deriving DecidableEq

/-- `getLatestSample`, translated clause by clause. The
`machineKey ? payload.machines[machineKey] : null` conditional tests JS
string truthiness, so an undefined key and the empty-string key both select
`null`. -/
def getLatestSample (payload : Option JsPayload) : Option TelemetrySample :=
  match payload with
  | none => none
  | some (.arr samples) => if samples.length ≠ 0 then samples.getLast? else none
  | some (.obj none) => none
  | some (.obj (some machines)) =>
    let machineKey := (machines.map Prod.fst).head?
    let series : Option (List TelemetrySample) :=
      match machineKey with
      | none => none
      | some k => if k = "" then none else machines.lookup k
    match series with
    | none => none
    | some ser => if ser.length = 0 then none else ser.getLast?

/-- The characterization of `getLatestSample` asserted by the specification
claim: `null` exactly on a null payload, an empty array, an object without a
`machines` map, or a missing or empty first series; otherwise the last
element of the array or of the first machine's series. -/
def getLatestSampleClaimed (payload : Option JsPayload) : Option TelemetrySample :=
  match payload with
  | none => none
  | some (.arr samples) => samples.getLast?
  | some (.obj none) => none
  | some (.obj (some machines)) =>
    match machines.head? with
    | none => none
    | some (_, series) => series.getLast?

/-- The claimed characterization amended with the one extra `null` case the
code exhibits: a first machine key equal to the empty string (falsy in JS). -/
def getLatestSampleAmended (payload : Option JsPayload) : Option TelemetrySample :=
  match payload with
  | none => none
  | some (.arr samples) => samples.getLast?
  | some (.obj none) => none
  | some (.obj (some machines)) =>
    match machines.head? with
    | none => none
    | some (k, series) => if k = "" then none else series.getLast?

/-- `mapSampleToParams`: the next `SimulationParams` built from a sample (a
spread of `previous` followed by explicit overrides of every field). -/
def mapSampleToParams (sample : TelemetrySample) (previous : SimulationParams) :
    SimulationParams :=
  { previous with
    rpm := (jsRound sample.rpm : ℚ)
    torque := (jsRound sample.torque : ℚ)
    loadWeight := (jsRound sample.loadWeight : ℚ)
    vibrationX := sample.vibrationX
    vibrationY := sample.vibrationY
    vibrationZ := sample.vibrationZ
    voltage := sample.voltage
    current := sample.current
    powerConsumption := sample.powerConsumption
    powerFactor := sample.powerFactor
    harmonicDistortion := sample.harmonicDistortion
    efficiency := sample.efficiency
    insulationResistance := sample.insulationResistance
    motorTemp := (jsRound sample.motorTemp : ℚ)
    windingTemp := (jsRound sample.windingTemp : ℚ)
    bearingTemp := (jsRound sample.bearingTemp : ℚ)
    ambientTemp := (jsRound sample.ambientTemp : ℚ)
    operatingHours := (jsRound sample.operatingHours : ℚ)
    startStopCycles := (jsRound sample.startStopCycles : ℚ)
    wearLevel := (jsRound sample.wearLevel : ℚ)
    bearingWear := (jsRound sample.bearingWear : ℚ)
    humidity := (jsRound sample.humidity : ℚ) }

/-- `buildPredictPayload`: the `sequence` array of the body posted to the
predict endpoint; each sample is copied field by field. -/
def buildPredictPayload (sequence : List TelemetrySample) : List TelemetrySample :=
  sequence.map (fun sample =>
    { rpm := sample.rpm
      torque := sample.torque
      loadWeight := sample.loadWeight
      motorTemp := sample.motorTemp
      windingTemp := sample.windingTemp
      bearingTemp := sample.bearingTemp
      ambientTemp := sample.ambientTemp
      vibrationX := sample.vibrationX
      vibrationY := sample.vibrationY
      vibrationZ := sample.vibrationZ
      vibrationMagnitude := sample.vibrationMagnitude
      voltage := sample.voltage
      current := sample.current
      powerConsumption := sample.powerConsumption
      powerFactor := sample.powerFactor
      harmonicDistortion := sample.harmonicDistortion
      efficiency := sample.efficiency
      operatingHours := sample.operatingHours
      startStopCycles := sample.startStopCycles
      wearLevel := sample.wearLevel
      bearingWear := sample.bearingWear
      insulationResistance := sample.insulationResistance
      humidity := sample.humidity
      isRunning := sample.isRunning
      timestamp := sample.timestamp
      machineId := sample.machineId
      machineName := sample.machineName })

/-- `buffer.push(latestSample); if (buffer.length > 200)
buffer.splice(0, buffer.length - 200)`. -/
def pushTrim (buffer : List TelemetrySample) (s : TelemetrySample) :
    List TelemetrySample :=
  let b := buffer ++ [s]
  if 200 < b.length then b.drop (b.length - 200) else b

/-- `buffer.slice(-50)`: the last 50 elements (the whole list when it is
shorter than 50). -/
def sliceLast50 (l : List TelemetrySample) : List TelemetrySample :=
  l.drop (l.length - 50)

/-- `TELEMETRY_POLL_MS` with no environment override: 1000. -/
def TELEMETRY_POLL_MS : ℚ := 1000

/-- `DEFAULT_FAILURE_THRESHOLD` with no environment override: 0.6. -/
def DEFAULT_FAILURE_THRESHOLD : ℚ := 0.6

/-- The component state read and written by the polling effect. -/
structure PollState where
  params : SimulationParams
  buffer : List TelemetrySample
  failureProbability : Option ℚ
  lastUpdate : Option ℚ
deriving DecidableEq

/-- Outcome of a `fetch`: a decoded value, or a rejection / non-OK response
(`!response.ok` is thrown, so both failure shapes land in the `catch`). -/
inductive FetchOutcome (α : Type) where
  | ok (value : α)
  | error
deriving DecidableEq

/-- The HTTP endpoints contacted by the polling effect. -/
inductive Endpoint where
  | telemetry
  | predict
  | retrain
  | hardware
deriving DecidableEq

/-- The body posted to the retrain and hardware endpoints. -/
structure DispatchPayload where
  failure_probability : ℚ
  timestamp : ℚ
  machineId : String
  machineName : String
  sample : TelemetrySample
deriving DecidableEq

/-- One HTTP request issued during a poll iteration, with its body. -/
inductive Request where
  | telemetryReq
  | predictReq (sequence : List TelemetrySample)
  | retrainReq (payload : DispatchPayload) (sequence : List TelemetrySample)
  | hardwareReq (payload : DispatchPayload)
deriving DecidableEq

/-- The endpoint a request goes to. -/
def requestEndpoint : Request → Endpoint
  | .telemetryReq => .telemetry
  | .predictReq _ => .predict
  | .retrainReq _ _ => .retrain
  | .hardwareReq _ => .hardware

/-- The `dispatchPayload` object literal of the poll iteration. -/
def mkDispatchPayload (nextFailure : ℚ) (latestSample : TelemetrySample) :
    DispatchPayload :=
  { failure_probability := nextFailure
    timestamp := latestSample.timestamp
    machineId := latestSample.machineId
    machineName := latestSample.machineName
    sample := latestSample }

/-- The `catch` handler of `fetchTelemetry`: while the effect is still
active it sets `lastUpdate` to `null` and touches nothing else. -/
def catchHandler (active : Bool) (st : PollState) : PollState :=
  if active then { st with lastUpdate := none } else st

/-- The part of a poll iteration after a sample was obtained: update
`lastUpdate` and `params`, append to the buffer, and when at least 50
samples are buffered post the last 50 to the predict endpoint and dispatch
the returned probability to retrain or hardware. -/
def pollSuccess (failureThreshold now : ℚ) (st : PollState)
    (latestSample : TelemetrySample) (predictResult : FetchOutcome ℚ) :
    PollState × List Request :=
  let st1 := { st with
    lastUpdate := some now
    params := mapSampleToParams latestSample st.params }
  let buffer := pushTrim st.buffer latestSample
  let st2 := { st1 with buffer := buffer }
  if 50 ≤ buffer.length then
    let sequence := sliceLast50 buffer
    match predictResult with
    | .error =>
      (catchHandler true st2,
       [.telemetryReq, .predictReq (buildPredictPayload sequence)])
    | .ok nextFailure =>
      let st3 := { st2 with failureProbability := some nextFailure }
      let dispatchPayload := mkDispatchPayload nextFailure latestSample
      if failureThreshold ≤ nextFailure then
        (st3, [.telemetryReq, .predictReq (buildPredictPayload sequence),
          .retrainReq dispatchPayload sequence])
      else
        (st3, [.telemetryReq, .predictReq (buildPredictPayload sequence),
          .hardwareReq dispatchPayload])
  else (st2, [.telemetryReq])

/-- One iteration of `fetchTelemetry`, as a function of the previous state
and of the outcome of each fetch; the predict outcome is consumed only when
the predict request is actually issued. Returns the next state together
with the requests issued, in order. -/
def fetchTelemetryStep (failureThreshold now : ℚ) (st : PollState)
    (telemetryResult : FetchOutcome JsPayload) (predictResult : FetchOutcome ℚ) :
    PollState × List Request :=
  match telemetryResult with
  | .error => (catchHandler true st, [.telemetryReq])
  | .ok payload =>
    match getLatestSample (some payload) with
    | none => (catchHandler true st, [.telemetryReq])
    | some latestSample =>
      pollSuccess failureThreshold now st latestSample predictResult

/-- What the polling `useEffect` installs. -/
structure TimerSchedule where
  immediateFirst : Bool
  intervalMs : ℚ
deriving DecidableEq

/-- The polling `useEffect`: with `autoMode` false it returns before doing
anything; with `autoMode` true it calls `fetchTelemetry()` once immediately
and installs a single `setInterval(fetchTelemetry, TELEMETRY_POLL_MS)`. -/
def telemetryEffect (autoMode : Bool) : Option TimerSchedule :=
  if autoMode then
    some { immediateFirst := true, intervalMs := TELEMETRY_POLL_MS }
  else none

/-- A concrete telemetry sample used to instantiate hypotheses. -/
def sampleA : TelemetrySample :=
  { timestamp := 1700000000000
    machineId := "B1"
    machineName := "Boiler"
    rpm := 1000
    torque := 110
    loadWeight := 60
    motorTemp := 180
    windingTemp := 180
    bearingTemp := 160
    ambientTemp := 27
    vibrationX := 2
    vibrationY := 2
    vibrationZ := 2
    vibrationMagnitude := 3.464
    voltage := 400
    current := 21
    powerConsumption := 17
    powerFactor := 0.9
    harmonicDistortion := 2
    efficiency := 88
    operatingHours := 4100
    startStopCycles := 12
    wearLevel := 17
    bearingWear := 27
    insulationResistance := 12
    humidity := 45
    isRunning := true }

/-- Where a failure of a fetch lands in the poll iteration: thrown into the
iteration's try/catch, or escaping as an unhandled promise rejection. -/
inductive FailureDisposition where
  | caught
  | unhandled
deriving DecidableEq

/-- How a failure of each endpoint's fetch is handled by the poll
iteration: `await fetch(TELEMETRY_URL)` and `await fetch(PREDICT_URL)` are
awaited and their non-OK responses are turned into throws, so both failure
shapes land in the iteration's `catch`; `void fetch(RETRAIN_URL)` and
`void fetch(HARDWARE_URL)` discard their promise, so a rejection is an
unhandled promise rejection and a non-OK response is never inspected. -/
def failureDisposition : Endpoint → FailureDisposition
  | .telemetry => .caught
  | .predict => .caught
  | .retrain => .unhandled
  | .hardware => .unhandled

/-- One iteration of `fetchTelemetry` including the settled outcome of the
fire-and-forget dispatch fetch (the `void fetch` to the retrain or hardware
endpoint). The `void` operator discards the promise, so no code in the
iteration consumes the outcome: the resulting state and request list do not
depend on it. -/
def fetchTelemetryStepFull (failureThreshold now : ℚ) (st : PollState)
    (telemetryResult : FetchOutcome JsPayload) (predictResult : FetchOutcome ℚ)
    (_dispatchResult : FetchOutcome Unit) : PollState × List Request :=
  fetchTelemetryStep failureThreshold now st telemetryResult predictResult

/-- A JSON field value: number, string, or boolean. -/
inductive JValue where
  | num (q : ℚ)
  | str (s : String)
  | bool (b : Bool)
deriving DecidableEq

/-- `parseFloat(Math.sqrt(q).toFixed(3))` for a nonnegative rational `q`,
computed exactly: the numerator is the half-up rounding of `1000 * √q`,
obtained through `Nat.sqrt` on `4000000 * num * den`. -/
def sqrtToFixed3 (q : ℚ) : ℚ :=
  (((Nat.sqrt (4000000 * q.num.toNat * q.den) + q.den) / (2 * q.den) : ℕ) : ℚ) / 1000

/-- The exact 27-field JSON body posted by `handleSendToFriend`, in source
order: `vibrationMagnitude` is the 3-decimal rounding of
`Math.sqrt(vibrationX² + vibrationY² + vibrationZ²)` and `isRunning` is
`params.rpm > 0`. -/
def buildManualPayload (timestamp : ℚ) (machineId machineName : String)
    (p : SimulationParams) : List (String × JValue) :=
  [("timestamp", .num timestamp),
   ("machineId", .str machineId),
   ("machineName", .str machineName),
   ("rpm", .num p.rpm),
   ("torque", .num p.torque),
   ("loadWeight", .num p.loadWeight),
   ("motorTemp", .num p.motorTemp),
   ("windingTemp", .num p.windingTemp),
   ("bearingTemp", .num p.bearingTemp),
   ("ambientTemp", .num p.ambientTemp),
   ("vibrationX", .num p.vibrationX),
   ("vibrationY", .num p.vibrationY),
   ("vibrationZ", .num p.vibrationZ),
   ("vibrationMagnitude", .num (sqrtToFixed3
     (p.vibrationX ^ 2 + p.vibrationY ^ 2 + p.vibrationZ ^ 2))),
   ("voltage", .num p.voltage),
   ("current", .num p.current),
   ("powerConsumption", .num p.powerConsumption),
   ("powerFactor", .num p.powerFactor),
   ("harmonicDistortion", .num p.harmonicDistortion),
   ("efficiency", .num p.efficiency),
   ("operatingHours", .num p.operatingHours),
   ("startStopCycles", .num p.startStopCycles),
   ("wearLevel", .num p.wearLevel),
   ("bearingWear", .num p.bearingWear),
   ("insulationResistance", .num p.insulationResistance),
   ("humidity", .num p.humidity),
   ("isRunning", .bool (decide (0 < p.rpm)))]

/-- The `SimulationResult` shape stored from a successful prediction
response (`types/machine.ts`). -/
structure SimulationResultValue where
  failureProbability : ℚ
  riskLevel : String
  interpretation : String
deriving DecidableEq

/-- The component state read and written by the manual prediction handler. -/
structure PredictionState where
  result : Option SimulationResultValue
  predictionStatus : Option String
  isPredicting : Bool
deriving DecidableEq

/-- Outcome of the manual prediction fetch: decoded response data, or the
error message raised by the rejection / non-OK response. -/
inductive PredictOutcome where
  | ok (data : SimulationResultValue)
  | error (message : String)
deriving DecidableEq

/-- The single POST to `/api/send_critical_data` issued by the handler. -/
inductive ManualRequest where
  | sendCriticalData (body : List (String × JValue))
deriving DecidableEq

/-- `handleSendToFriend`: build the 27-field payload, POST it once, and on
success store the response with a success status; on failure set a
transient `Error:` status and leave the stored result alone. `isPredicting`
is raised at entry and cleared in the `finally` block. -/
def handleSendToFriend (p : SimulationParams) (timestamp : ℚ)
    (machineId machineName : String) (st : PredictionState)
    (outcome : PredictOutcome) : PredictionState × List ManualRequest :=
  let req := ManualRequest.sendCriticalData
    (buildManualPayload timestamp machineId machineName p)
  match outcome with
  | .ok data =>
    ({ result := some data
       predictionStatus := some "Prediction received!"
       isPredicting := false }, [req])
  | .error message =>
    ({ result := st.result
       predictionStatus := some ("Error: " ++ message)
       isPredicting := false }, [req])

/-- The status-clearing `useEffect`: a non-null `predictionStatus` schedules
a single timer that resets the status to `null` after 3000 ms. -/
def predictionStatusEffect (status : Option String) : Option ℚ :=
  match status with
  | some _ => some 3000
  | none => none

/-- `jsRound` is the identity on integers. -/
theorem jsRound_intCast (z : ℤ) : jsRound (z : ℚ) = z := by
  unfold jsRound
  rw [Int.floor_int_add]
  norm_num

/-- `clamp x 0 100` lies between `0` and `100`. -/
theorem clamp_mem (x : ℚ) : 0 ≤ clamp x 0 100 ∧ clamp x 0 100 ≤ 100 := by
  unfold clamp
  constructor
  · exact le_min (by norm_num) (le_max_left 0 x)
  · exact min_le_left _ _

/-- C1: the derived risk score equals the fixed linear formula
`clamp (round ((rpm/2000)*18 + (torque/200)*12 + (vibration/10)*15 +
(temperature/220)*12 + max 0 (1-powerFactor)*20 + max 0 (ambientTemp-25)*0.3 +
bearingWear*0.12 + wearLevel*0.08)) 0 100`, where `vibration` is the mean of
the three vibration axes rounded to 2 decimals and `temperature` is the
rounded mean of `motorTemp` and `bearingTemp`; in particular the risk score
always lies between `0` and `100` inclusive. -/
theorem riskScore_formula_and_bounded (p : SimulationParams) :
    (derived p).riskScore =
      clamp
        ((jsRound ((p.rpm / 2000) * 18 + (p.torque / 200) * 12 +
          (toFixed 2 ((p.vibrationX + p.vibrationY + p.vibrationZ) / 3) / 10) * 15 +
          ((jsRound ((p.motorTemp + p.bearingTemp) / 2) : ℚ) / 220) * 12 +
          max 0 (1 - p.powerFactor) * 20 +
          max 0 (p.ambientTemp - 25) * 0.3 +
          p.bearingWear * 0.12 +
          p.wearLevel * 0.08) : ℚ)) 0 100 ∧
    0 ≤ (derived p).riskScore ∧ (derived p).riskScore ≤ 100 := by
  refine ⟨?_, (clamp_mem _).1, (clamp_mem _).2⟩
  show clamp _ 0 100 = clamp _ 0 100
  congr 2
  ring_nf

/-- C6: the derived remaining-life estimate equals
`max 120 (round (1400 - 8*riskScore - operatingHours/6 - 3*bearingWear))`
and is therefore never below 120 hours. -/
theorem remainingLife_formula_and_bounded (p : SimulationParams) :
    (derived p).remainingLife =
      max 120
        ((jsRound (1400 - 8 * (derived p).riskScore - p.operatingHours / 6 -
          3 * p.bearingWear) : ℚ)) ∧
    120 ≤ (derived p).remainingLife := by
  constructor
  · show max 120
      ((jsRound (1400 - (derived p).riskScore * 8 - p.operatingHours / 6 -
        p.bearingWear * 3) : ℚ)) = _
    congr 2
    ring_nf
  · exact le_max_left _ _

/-- C7: the derived temperature aggregate is the rounded mean of `motorTemp`
and `bearingTemp`, the derived vibration aggregate is the mean of the three
vibration axes rounded to 2 decimals, the expected temperature equals the
temperature aggregate, and the expected vibration is the vibration aggregate
re-rounded to 1 decimal place. -/
theorem derived_aggregates (p : SimulationParams) :
    (derived p).temperature = jsRound ((p.motorTemp + p.bearingTemp) / 2) ∧
    (derived p).vibration =
      toFixed 2 ((p.vibrationX + p.vibrationY + p.vibrationZ) / 3) ∧
    (derived p).expectedTemp = (derived p).temperature ∧
    (derived p).expectedVibration = toFixed 1 (derived p).vibration := by
  refine ⟨rfl, rfl, ?_, rfl⟩
  show jsRound ((jsRound ((p.motorTemp + p.bearingTemp) / 2) : ℚ)) = _
  exact jsRound_intCast _

/-- The explicit field-by-field copy in `buildPredictPayload` is the
identity on samples. -/
theorem buildPredictPayload_id (sequence : List TelemetrySample) :
    buildPredictPayload sequence = sequence := by
  unfold buildPredictPayload
  exact List.map_id sequence

/-- C9: after every poll iteration append, the telemetry buffer holds
exactly the most recent at-most-200 samples in arrival order, hence never
more than 200 samples. -/
theorem telemetryBuffer_bounded (buffer : List TelemetrySample)
    (s : TelemetrySample) :
    pushTrim buffer s = (buffer ++ [s]).drop (buffer.length + 1 - 200) ∧
    (pushTrim buffer s).length = min (buffer.length + 1) 200 ∧
    (pushTrim buffer s).length ≤ 200 := by
  simp only [pushTrim, List.length_append, List.length_singleton]
  split
  · refine ⟨rfl, ?_, ?_⟩ <;>
      simp only [List.length_drop, List.length_append, List.length_singleton] <;>
      omega
  · have h0 : buffer.length + 1 - 200 = 0 := by omega
    rw [h0, List.drop_zero]
    refine ⟨rfl, ?_, ?_⟩ <;>
      simp only [List.length_append, List.length_singleton] <;> omega

/-- C10 counterexample: on a payload whose only machine key is the empty
string (a falsy key in JS), `getLatestSample` returns `none` even though the
first machine's series is present and non-empty, while the claimed
characterization demands the last element of that series. -/
theorem getLatestSample_claim_counterexample :
    getLatestSample (some (.obj (some [("", [sampleA])]))) = none ∧
    getLatestSampleClaimed (some (.obj (some [("", [sampleA])]))) = some sampleA ∧
    getLatestSample (some (.obj (some [("", [sampleA])]))) ≠
      getLatestSampleClaimed (some (.obj (some [("", [sampleA])]))) := by
  refine ⟨rfl, rfl, ?_⟩
  decide

/-- C10 amended: `getLatestSample` is total and agrees everywhere with the
claimed characterization extended by one extra `null` case, a first machine
key equal to the empty string (falsy in JS): it returns `null` exactly when
the payload is null, an empty array, an object without a machines map, or
the first machine key is missing or empty-string or its series is empty;
otherwise it returns the last element of the payload array or of the first
machine's series. -/
theorem getLatestSample_amended_characterization (payload : Option JsPayload) :
    getLatestSample payload = getLatestSampleAmended payload := by
  match payload with
  | none => rfl
  | some (.arr samples) =>
    cases samples <;> simp [getLatestSample, getLatestSampleAmended]
  | some (.obj none) => rfl
  | some (.obj (some machines)) =>
    cases machines with
    | nil => rfl
    | cons kv rest =>
      obtain ⟨k, series⟩ := kv
      by_cases hk : k = ""
      · subst hk
        rfl
      · simp only [getLatestSample, getLatestSampleAmended, List.map_cons,
          List.head?_cons, List.lookup, beq_self_eq_true, if_neg hk]
        cases series <;> simp

/-- C2: in a poll iteration whose buffer, after appending the new sample,
holds at least 50 samples, the most recent 50 buffered samples are posted to
the predict endpoint, and the returned failure probability is dispatched to
exactly one downstream endpoint: retrain (with the 50-sample sequence
attached) when it is greater than or equal to the failure threshold — whose
default is 0.6 — and hardware otherwise. -/
theorem autoPoll_predict_dispatch (failureThreshold now prob : ℚ)
    (st : PollState) (payload : JsPayload) (s : TelemetrySample)
    (hs : getLatestSample (some payload) = some s)
    (hlen : 50 ≤ (pushTrim st.buffer s).length) :
    (fetchTelemetryStep failureThreshold now st (.ok payload) (.ok prob)).2 =
      [Request.telemetryReq,
       Request.predictReq (buildPredictPayload (sliceLast50 (pushTrim st.buffer s))),
       if failureThreshold ≤ prob then
         Request.retrainReq (mkDispatchPayload prob s)
           (sliceLast50 (pushTrim st.buffer s))
       else Request.hardwareReq (mkDispatchPayload prob s)] ∧
    buildPredictPayload (sliceLast50 (pushTrim st.buffer s)) =
      sliceLast50 (pushTrim st.buffer s) ∧
    (sliceLast50 (pushTrim st.buffer s)).length = 50 ∧
    (sliceLast50 (pushTrim st.buffer s)) <:+ pushTrim st.buffer s ∧
    DEFAULT_FAILURE_THRESHOLD = 6 / 10 := by
  have hstep : fetchTelemetryStep failureThreshold now st (.ok payload) (.ok prob) =
      pollSuccess failureThreshold now st s (.ok prob) := by
    simp only [fetchTelemetryStep, hs]
  refine ⟨?_, buildPredictPayload_id _, ?_, ?_, by norm_num [DEFAULT_FAILURE_THRESHOLD]⟩
  · rw [hstep]
    simp only [pollSuccess]
    rw [if_pos hlen]
    split_ifs with hcrit <;> rfl
  · unfold sliceLast50
    rw [List.length_drop]
    omega
  · exact ⟨(pushTrim st.buffer s).take ((pushTrim st.buffer s).length - 50),
      List.take_append_drop _ _⟩

/-- C2 witness: a buffer of 49 samples plus one fresh sample reaches the
50-sample mark; probability 0.7 meets the default threshold 0.6. -/
theorem autoPoll_predict_dispatch_witness :
    getLatestSample (some (.arr [sampleA])) = some sampleA ∧
    50 ≤ (pushTrim (List.replicate 49 sampleA) sampleA).length ∧
    ((fetchTelemetryStep 0.6 0
        ⟨defaultParams, List.replicate 49 sampleA, none, none⟩
        (.ok (.arr [sampleA])) (.ok 0.7)).2 =
      [Request.telemetryReq,
       Request.predictReq (buildPredictPayload (sliceLast50
         (pushTrim (List.replicate 49 sampleA) sampleA))),
       if (0.6 : ℚ) ≤ 0.7 then
         Request.retrainReq (mkDispatchPayload 0.7 sampleA)
           (sliceLast50 (pushTrim (List.replicate 49 sampleA) sampleA))
       else Request.hardwareReq (mkDispatchPayload 0.7 sampleA)] ∧
     buildPredictPayload (sliceLast50 (pushTrim (List.replicate 49 sampleA) sampleA)) =
       sliceLast50 (pushTrim (List.replicate 49 sampleA) sampleA) ∧
     (sliceLast50 (pushTrim (List.replicate 49 sampleA) sampleA)).length = 50 ∧
     (sliceLast50 (pushTrim (List.replicate 49 sampleA) sampleA)) <:+
       pushTrim (List.replicate 49 sampleA) sampleA ∧
     DEFAULT_FAILURE_THRESHOLD = 6 / 10) :=
  ⟨rfl, by decide,
    autoPoll_predict_dispatch 0.6 0 0.7
      ⟨defaultParams, List.replicate 49 sampleA, none, none⟩
      (.arr [sampleA]) sampleA rfl (by decide)⟩

/-- C3: with auto mode enabled the polling effect installs a single timer
that fires once immediately and then every `TELEMETRY_POLL_MS` (default
1000) milliseconds, and on each successful poll the parameters are updated
from the latest sample and the last-update timestamp is set; with auto mode
disabled nothing is installed and no such update happens. -/
theorem autoMode_polling (autoMode : Bool) (failureThreshold now prob : ℚ)
    (st : PollState) (payload : JsPayload) (s : TelemetrySample)
    (hs : getLatestSample (some payload) = some s) :
    (autoMode = true →
      telemetryEffect autoMode =
        some { immediateFirst := true, intervalMs := TELEMETRY_POLL_MS }) ∧
    (autoMode = false → telemetryEffect autoMode = none) ∧
    TELEMETRY_POLL_MS = 1000 ∧
    (fetchTelemetryStep failureThreshold now st (.ok payload) (.ok prob)).1.params =
      mapSampleToParams s st.params ∧
    (fetchTelemetryStep failureThreshold now st (.ok payload) (.ok prob)).1.lastUpdate =
      some now := by
  have hstep : fetchTelemetryStep failureThreshold now st (.ok payload) (.ok prob) =
      pollSuccess failureThreshold now st s (.ok prob) := by
    simp only [fetchTelemetryStep, hs]
  refine ⟨fun h => by subst h; rfl, fun h => by subst h; rfl, rfl, ?_, ?_⟩ <;>
    rw [hstep] <;> simp only [pollSuccess] <;> split_ifs <;> rfl

/-- C3 witness: auto mode enabled, one concrete sample polled. -/
theorem autoMode_polling_witness :
    getLatestSample (some (.arr [sampleA])) = some sampleA ∧
    ((true = true →
      telemetryEffect true =
        some { immediateFirst := true, intervalMs := TELEMETRY_POLL_MS }) ∧
     (true = false → telemetryEffect true = none) ∧
     TELEMETRY_POLL_MS = 1000 ∧
     (fetchTelemetryStep 0.6 0 ⟨defaultParams, [], none, none⟩
        (.ok (.arr [sampleA])) (.ok 0.2)).1.params =
       mapSampleToParams sampleA defaultParams ∧
     (fetchTelemetryStep 0.6 0 ⟨defaultParams, [], none, none⟩
        (.ok (.arr [sampleA])) (.ok 0.2)).1.lastUpdate = some 0) :=
  ⟨rfl, autoMode_polling true 0.6 0 0.2 ⟨defaultParams, [], none, none⟩
    (.arr [sampleA]) sampleA rfl⟩

/-- C4 counterexample: in a concrete iteration the buffer reaches 50
samples and the returned probability 1 meets the failure threshold 0, so a
retrain request is issued; its fire-and-forget `void fetch` fails, but the
failure is an unhandled promise rejection (no catch runs inside the
iteration) and the iteration's final state keeps `lastUpdate = some 0`
rather than the `null` the claimed failure handler leaves behind. -/
theorem fetch_failure_claim_counterexample :
    ((fetchTelemetryStepFull 0 0
        ⟨defaultParams, List.replicate 49 sampleA, none, none⟩
        (.ok (.arr [sampleA])) (.ok 1) .error).2.map requestEndpoint =
      [Endpoint.telemetry, Endpoint.predict, Endpoint.retrain]) ∧
    failureDisposition Endpoint.retrain = FailureDisposition.unhandled ∧
    failureDisposition Endpoint.hardware = FailureDisposition.unhandled ∧
    (fetchTelemetryStepFull 0 0
        ⟨defaultParams, List.replicate 49 sampleA, none, none⟩
        (.ok (.arr [sampleA])) (.ok 1) .error).1.lastUpdate = some 0 ∧
    (fetchTelemetryStepFull 0 0
        ⟨defaultParams, List.replicate 49 sampleA, none, none⟩
        (.ok (.arr [sampleA])) (.ok 1) .error).1.lastUpdate ≠ none := by
  refine ⟨by decide, rfl, rfl, by decide, ?_⟩
  intro h
  have h0 : (fetchTelemetryStepFull 0 0
      ⟨defaultParams, List.replicate 49 sampleA, none, none⟩
      (.ok (.arr [sampleA])) (.ok 1) .error).1.lastUpdate = some 0 := by
    decide
  rw [h0] at h
  exact Option.noConfusion h

/-- C4 as amended: a failure of an awaited fetch (telemetry or predict) is
caught within the iteration, where the catch handler only sets the
last-update timestamp to `null`, leaving parameters, buffer and failure
probability untouched; on a telemetry failure the iteration's final state
is exactly the handler's output, and on a predict failure it is the
handler applied to the state the try body had built; no endpoint is
contacted twice in any iteration, so a failed request is never retried;
the retrain and hardware dispatch fetches are fire-and-forget: their
failures are unhandled and the iteration's result does not depend on
their outcome. -/
theorem fetch_failure_handling (failureThreshold now : ℚ) (st : PollState)
    (telemetryResult : FetchOutcome JsPayload) (predictResult : FetchOutcome ℚ) :
    catchHandler true st = { st with lastUpdate := none } ∧
    (catchHandler true st).lastUpdate = none ∧
    (catchHandler true st).params = st.params ∧
    (catchHandler true st).buffer = st.buffer ∧
    (catchHandler true st).failureProbability = st.failureProbability ∧
    fetchTelemetryStep failureThreshold now st .error predictResult =
      (catchHandler true st, [Request.telemetryReq]) ∧
    ((fetchTelemetryStep failureThreshold now st telemetryResult
        predictResult).2.map requestEndpoint).Nodup ∧
    failureDisposition Endpoint.telemetry = FailureDisposition.caught ∧
    failureDisposition Endpoint.predict = FailureDisposition.caught ∧
    failureDisposition Endpoint.retrain = FailureDisposition.unhandled ∧
    failureDisposition Endpoint.hardware = FailureDisposition.unhandled ∧
    (∀ dispatchResult : FetchOutcome Unit,
      fetchTelemetryStepFull failureThreshold now st telemetryResult
          predictResult dispatchResult =
        fetchTelemetryStep failureThreshold now st telemetryResult
          predictResult) ∧
    (∀ (payload : JsPayload) (s : TelemetrySample),
      getLatestSample (some payload) = some s →
      50 ≤ (pushTrim st.buffer s).length →
      (fetchTelemetryStep failureThreshold now st (.ok payload) .error).1 =
        catchHandler true
          { params := mapSampleToParams s st.params
            buffer := pushTrim st.buffer s
            failureProbability := st.failureProbability
            lastUpdate := some now }) := by
  refine ⟨rfl, rfl, rfl, rfl, rfl, rfl, ?nodup, rfl, rfl, rfl, rfl,
    fun _ => rfl, ?predicterr⟩
  case predicterr =>
    intro payload s hs hlen
    simp only [fetchTelemetryStep, hs, pollSuccess]
    rw [if_pos hlen]
  cases telemetryResult with
  | error =>
    simp only [fetchTelemetryStep, List.map_cons, List.map_nil, requestEndpoint]
    decide
  | ok payload =>
    cases hgl : getLatestSample (some payload) with
    | none =>
      simp only [fetchTelemetryStep, hgl, List.map_cons, List.map_nil,
        requestEndpoint]
      decide
    | some latestSample =>
      simp only [fetchTelemetryStep, hgl, pollSuccess]
      split_ifs with h50
      · cases predictResult with
        | error =>
          simp only [List.map_cons, List.map_nil, requestEndpoint]
          decide
        | ok prob =>
          dsimp only []
          split_ifs with hcrit <;>
            simp only [List.map_cons, List.map_nil, requestEndpoint] <;>
            decide
      · simp only [List.map_cons, List.map_nil, requestEndpoint]
        decide

/-- C4 witness: a concrete iteration (49 buffered samples plus one fresh
sample) whose predict fetch fails; the catch leaves the try body's params
and buffer in place and nulls only the timestamp. -/
theorem fetch_failure_handling_witness :
    getLatestSample (some (.arr [sampleA])) = some sampleA ∧
    50 ≤ (pushTrim (List.replicate 49 sampleA) sampleA).length ∧
    (fetchTelemetryStep 0.6 0
        ⟨defaultParams, List.replicate 49 sampleA, none, none⟩
        (.ok (.arr [sampleA])) .error).1 =
      catchHandler true
        { params := mapSampleToParams sampleA defaultParams
          buffer := pushTrim (List.replicate 49 sampleA) sampleA
          failureProbability := none
          lastUpdate := some 0 } :=
  ⟨rfl, by decide,
    (fetch_failure_handling 0.6 0
        ⟨defaultParams, List.replicate 49 sampleA, none, none⟩
        (.ok (.arr [sampleA])) .error).2.2.2.2.2.2.2.2.2.2.2.2
      (.arr [sampleA]) sampleA rfl (by decide)⟩

/-- For nonnegative `q`, `sqrtToFixed3 q` is exactly the real square root
of `q` rounded half-up to 3 decimal places. -/
theorem sqrtToFixed3_eq (q : ℚ) (hq : 0 ≤ q) :
    (1000 : ℚ) * sqrtToFixed3 q =
      ((⌊(1000 : ℝ) * Real.sqrt (q : ℝ) + 1 / 2⌋ : ℤ) : ℚ) := by
  set n : ℕ := q.num.toNat with hn
  set d : ℕ := q.den with hd
  have hd0 : 0 < d := q.den_pos
  have hd0R : (0 : ℝ) < (d : ℝ) := by exact_mod_cast hd0
  have hnum : ((n : ℕ) : ℝ) = (q.num : ℝ) := by
    exact_mod_cast congrArg (fun z : ℤ => (z : ℝ)) (Int.toNat_of_nonneg (Rat.num_nonneg.mpr hq))
  have hq' : (q : ℝ) = (n : ℝ) / (d : ℝ) := by
    rw [Rat.cast_def, hnum]
  have hsd : (0 : ℝ) < Real.sqrt d := Real.sqrt_pos.mpr hd0R
  have hM : ((4000000 * n * d : ℕ) : ℝ) = (2000 : ℝ) ^ 2 * ((n : ℝ) * (d : ℝ)) := by
    push_cast
    ring
  have hsqrtM : Real.sqrt ((4000000 * n * d : ℕ) : ℝ) =
      2000 * (Real.sqrt n * Real.sqrt d) := by
    rw [hM, Real.sqrt_mul (by positivity), Real.sqrt_sq (by norm_num : (0:ℝ) ≤ 2000),
      Real.sqrt_mul (by positivity)]
  have hsq : Real.sqrt (q : ℝ) = Real.sqrt n / Real.sqrt d := by
    rw [hq', Real.sqrt_div (by positivity)]
  have hdd : Real.sqrt d * Real.sqrt d = (d : ℝ) := Real.mul_self_sqrt hd0R.le
  have h1 : Real.sqrt n * Real.sqrt d / (d : ℝ) = Real.sqrt n / Real.sqrt d := by
    rw [eq_div_iff hsd.ne', div_mul_eq_mul_div, mul_assoc, hdd, mul_div_assoc,
      div_self hd0R.ne', mul_one]
  have key : (1000 : ℝ) * Real.sqrt (q : ℝ) + 1 / 2 =
      (Real.sqrt ((4000000 * n * d : ℕ) : ℝ) + (d : ℝ)) / ((2 * d : ℕ) : ℝ) := by
    rw [hsq, hsqrtM, ← h1]
    push_cast
    field_simp
    ring
  have hfloor : ⌊(Real.sqrt ((4000000 * n * d : ℕ) : ℝ) + (d : ℝ)) / ((2 * d : ℕ) : ℝ)⌋ =
      (((Nat.sqrt (4000000 * n * d) + d) / (2 * d) : ℕ) : ℤ) := by
    have ha : (0 : ℝ) ≤ (Real.sqrt ((4000000 * n * d : ℕ) : ℝ) + (d : ℝ)) / ((2 * d : ℕ) : ℝ) := by
      positivity
    rw [← Int.natCast_floor_eq_floor ha]
    congr 1
    rw [Nat.floor_div_nat, Nat.floor_add_nat (Real.sqrt_nonneg _) d,
      Real.nat_floor_real_sqrt_eq_nat_sqrt]
  rw [key, hfloor]
  unfold sqrtToFixed3
  rw [← hn, ← hd, Int.cast_natCast]
  ring

/-- C5: the manual prediction payload has exactly 27 fields — the 22
numeric simulation parameters plus timestamp, machineId, machineName,
vibrationMagnitude and isRunning, in source order — where
vibrationMagnitude is the Euclidean norm of the three vibration axes
rounded to 3 decimal places and isRunning is true exactly when rpm > 0. -/
theorem manual_payload_shape (timestamp : ℚ) (machineId machineName : String)
    (p : SimulationParams) :
    (buildManualPayload timestamp machineId machineName p).length = 27 ∧
    (buildManualPayload timestamp machineId machineName p).map Prod.fst =
      ["timestamp", "machineId", "machineName", "rpm", "torque", "loadWeight",
       "motorTemp", "windingTemp", "bearingTemp", "ambientTemp", "vibrationX",
       "vibrationY", "vibrationZ", "vibrationMagnitude", "voltage", "current",
       "powerConsumption", "powerFactor", "harmonicDistortion", "efficiency",
       "operatingHours", "startStopCycles", "wearLevel", "bearingWear",
       "insulationResistance", "humidity", "isRunning"] ∧
    (buildManualPayload timestamp machineId machineName p).lookup
      "vibrationMagnitude" =
      some (.num (sqrtToFixed3
        (p.vibrationX ^ 2 + p.vibrationY ^ 2 + p.vibrationZ ^ 2))) ∧
    (1000 : ℚ) *
      sqrtToFixed3 (p.vibrationX ^ 2 + p.vibrationY ^ 2 + p.vibrationZ ^ 2) =
      ((⌊(1000 : ℝ) * Real.sqrt ((p.vibrationX : ℝ) ^ 2 + (p.vibrationY : ℝ) ^ 2 +
        (p.vibrationZ : ℝ) ^ 2) + 1 / 2⌋ : ℤ) : ℚ) ∧
    ((buildManualPayload timestamp machineId machineName p).lookup "isRunning" =
      some (.bool true) ↔ 0 < p.rpm) := by
  refine ⟨rfl, rfl, rfl, ?_, ?_⟩
  · have harg : ((p.vibrationX ^ 2 + p.vibrationY ^ 2 + p.vibrationZ ^ 2 : ℚ) : ℝ) =
        (p.vibrationX : ℝ) ^ 2 + (p.vibrationY : ℝ) ^ 2 + (p.vibrationZ : ℝ) ^ 2 := by
      push_cast
      ring
    have h := sqrtToFixed3_eq
      (p.vibrationX ^ 2 + p.vibrationY ^ 2 + p.vibrationZ ^ 2) (by positivity)
    rw [harg] at h
    exact h
  · show some (JValue.bool (decide (0 < p.rpm))) = some (.bool true) ↔ 0 < p.rpm
    simp

/-- C8: a failed manual prediction is surfaced only as a transient status
message beginning with `Error:` that the status effect clears after 3000
milliseconds; the stored prediction result is left unchanged (it is set
only on success) and exactly one request is issued, so nothing is retried. -/
theorem manual_prediction_failure (p : SimulationParams) (timestamp : ℚ)
    (machineId machineName : String) (st : PredictionState) (message : String)
    (data : SimulationResultValue) :
    (handleSendToFriend p timestamp machineId machineName st
        (.error message)).1.predictionStatus = some ("Error: " ++ message) ∧
    (∃ rest, "Error: " ++ message = "Error:" ++ rest) ∧
    (handleSendToFriend p timestamp machineId machineName st
        (.error message)).1.result = st.result ∧
    (handleSendToFriend p timestamp machineId machineName st
        (.error message)).2.length = 1 ∧
    predictionStatusEffect
      (handleSendToFriend p timestamp machineId machineName st
        (.error message)).1.predictionStatus = some 3000 ∧
    (handleSendToFriend p timestamp machineId machineName st
        (.ok data)).1.result = some data := by
  refine ⟨rfl, ⟨" " ++ message, ?_⟩, rfl, rfl, rfl, rfl⟩
  rw [← String.append_assoc]
  have hlit : "Error:" ++ " " = "Error: " := by decide
  rw [hlit]

end DigitalTwin
